import Mathlib

/-!
Verification development for the gs-optimize PDF optimizer.

The program (src/gs-optimize.py) batch-optimizes PDF files by invoking
Ghostscript, replacing originals with smaller outputs when beneficial.
Here the filesystem is modelled as an association list from paths
(lists of characters) to file contents (lists of bytes); the external
Ghostscript process is modelled by its observable behaviour: how long it
runs, its exit code, and the content it writes (if any) to the output
path.  Every definition is a direct transcription of the corresponding
Python function.
-/

namespace GsOptimize

/-- File content: a sequence of bytes.  Its length is the file size. -/
abbrev Content := List Nat

/-- A path, modelled as its character sequence. -/
abbrev Path := List Char

/-- Filesystem state: an association list from paths to contents. -/
abbrev FS := List (Path × Content)

/-- Look up the content at a path (os.path.getsize reads its length). -/
def fsGet : FS → Path → Option Content
  | [], _ => none
  | e :: fs, p => if e.1 == p then some e.2 else fsGet fs p

/-- os.remove: drop the entry at a path. -/
def fsRemove : FS → Path → FS
  | [], _ => []
  | e :: fs, p => if e.1 == p then fsRemove fs p else e :: fsRemove fs p

/-- Writing a file: bind a path to a content. -/
def fsSet (fs : FS) (p : Path) (c : Content) : FS :=
  (p, c) :: fsRemove fs p

/-- os.rename: move the content at `src` to `dst`. -/
def fsRename (fs : FS) (src dst : Path) : FS :=
  match fsGet fs src with
  | none => fs
  | some c => fsSet (fsRemove fs src) dst c

/-- str.startswith. -/
def startswith (s t : Path) : Bool := t.isPrefixOf s

/-- str.endswith. -/
def endswith (s t : Path) : Bool := t.isSuffixOf s

/-- os.path.dirname (POSIX): everything before the last separator,
with trailing separators stripped unless the head is all separators. -/
def dirname (p : Path) : Path :=
  let head := ((p.reverse).dropWhile (fun c => !(c == '/'))).reverse
  if head.isEmpty then head
  else if head.all (fun c => c == '/') then head
  else ((head.reverse).dropWhile (fun c => c == '/')).reverse

/-- os.path.join (POSIX) of a directory and a file name. -/
def joinPath (d f : Path) : Path :=
  if f.head? == some '/' then f
  else if d.isEmpty || (d.getLast? == some '/') then d ++ f
  else d ++ '/' :: f

/-- The characters of the literal ".pdf". -/
def pdfSuffix : Path := ['.', 'p', 'd', 'f']

/-- The characters of the literal "pdf" (the extension argument). -/
def pdfExt : Path := ['p', 'd', 'f']

/-- The characters of the literal "temp_" (the transient-file marker). -/
def tempMark : Path := ['t', 'e', 'm', 'p', '_']

/-- unique_filename(ext, prefix): the f-string
`f"{prefix} {uuid4().hex} .{ext}"`, with the random hex token a
parameter. -/
def unique_filename (ext pre hex : Path) : Path :=
  pre ++ ' ' :: hex ++ ' ' :: '.' :: ext

/-- Observable behaviour of one Ghostscript invocation: how many seconds
it would run before exiting, its exit code, and the content it writes to
the designated output path (`none` if it writes nothing). -/
structure GSProc where
  runtime : Nat
  exitCode : Int
  written : Option Content
deriving DecidableEq

/-- `process.returncode` after `process.wait(60)` guarded by
`except TimeoutExpired: process.terminate()`: the exit code if the
process finished within the timeout, else `None`. -/
def returncode_after_wait (p : GSProc) : Option Int :=
  if p.runtime ≤ 60 then some p.exitCode else none

/-- Whether the `except TimeoutExpired` branch ran `process.terminate()`. -/
def process_terminated (p : GSProc) : Bool := decide (60 < p.runtime)

/-- How one call of `optimize_file` ends: a fatal `sys.exit` with an
exit status and message, an uncaught exception, or a normal return of
an optional (initial size, final size) pair. -/
inductive JobOutcome where
  | fatalExit (code : Nat) (msg : String)
  | crash
  | result (r : Option (Nat × Nat))
deriving DecidableEq

/-- The temporary output path chosen by `optimize_file`:
`os.path.join(os.path.dirname(source), unique_filename("pdf", "temp_"))`. -/
def output_file_path (source_file_path hex : Path) : Path :=
  joinPath (dirname source_file_path) (unique_filename pdfExt tempMark hex)

/-- optimize_file(source_file_path): validate the ".pdf" suffix, read the
source size, run Ghostscript toward the temp path, and on success either
replace the source (delete, then rename) when the output is smaller, or
delete the temp file.  Returns the outcome together with the resulting
filesystem. -/
def optimize_file (fs : FS) (source_file_path : Path) (hex : Path)
    (p : GSProc) : JobOutcome × FS :=
  if !(endswith source_file_path pdfSuffix) then
    (JobOutcome.fatalExit 1 "Not a PDF file.", fs)
  else
    match fsGet fs source_file_path with
    | none => (JobOutcome.crash, fs)
    | some source_content =>
      let fs1 : FS :=
        match p.written with
        | none => fs
        | some c => fsSet fs (output_file_path source_file_path hex) c
      if !(returncode_after_wait p == some 0) then
        (JobOutcome.result none, fs1)
      else
        match fsGet fs1 (output_file_path source_file_path hex) with
        | none => (JobOutcome.crash, fs1)
        | some output_content =>
          if output_content.length < source_content.length then
            (JobOutcome.result (some (source_content.length, output_content.length)),
              fsRename (fsRemove fs1 source_file_path)
                (output_file_path source_file_path hex) source_file_path)
          else
            (JobOutcome.result none,
              fsRemove fs1 (output_file_path source_file_path hex))

/-- One step of the aggregation loop in `optimize_folder`: a `None`
result (`if not result: continue`) contributes nothing; a present pair
is added componentwise to the running totals. -/
def agg_step (t : Nat × Nat) (r : Option (Nat × Nat)) : Nat × Nat :=
  match r with
  | none => t
  | some s => (t.1 + s.1, t.2 + s.2)

/-- The aggregation loop of `optimize_folder` over the collected job
results, starting from zero totals. -/
def aggregate (results : List (Option (Nat × Nat))) : Nat × Nat :=
  results.foldl agg_step (0, 0)

/-- The summary's ratio expression
`100 * (1 - total_final_size / total_initial_size)`; `none` models the
ZeroDivisionError raised when the denominator is zero. -/
def compression_ratio (total_initial_size total_final_size : Nat) : Option ℚ :=
  if total_initial_size = 0 then none
  else some (100 * (1 - (total_final_size : ℚ) / (total_initial_size : ℚ)))

/-- The final-summary computation of `optimize_folder`: aggregate the
results, then compute the compression ratio from the totals. -/
def optimize_folder_summary (results : List (Option (Nat × Nat))) : Option ℚ :=
  compression_ratio (aggregate results).1 (aggregate results).2

/-- The directory filter of `optimize_folder`:
`if not file.startswith("temp_") and file.endswith(".pdf")`. -/
def folder_candidates (files : List Path) : List Path :=
  files.filter (fun file => !(startswith file tempMark) && endswith file pdfSuffix)

/-- Python's `f"{x:.2f}"` on an exact rational: round to hundredths and
print with two decimal digits. -/
def format2 (q : ℚ) : String :=
  let n : Int := round (q * 100)
  let m : Nat := n.toNat
  toString (m / 100) ++ "." ++
    (if m % 100 < 10 then "0" ++ toString (m % 100) else toString (m % 100))

/-- The unit list of convert_from_bytes. -/
def sizeUnits : List String := ["bytes", "KB", "MB", "GB", "TB"]

/-- The loop of convert_from_bytes: return at the first unit for which
the value is below 1000, else divide by 1000 and continue; falling off
the end returns `None`. -/
def convert_go : ℚ → List String → Option String
  | _, [] => none
  | b, unit :: rest =>
    if b < 1000 then some (format2 b ++ " " ++ unit)
    else convert_go (b / 1000) rest

/-- convert_from_bytes: format a byte count with decimal units. -/
def convert_from_bytes (b : ℚ) : Option String := convert_go b sizeUnits

/-! ### Basic filesystem lemmas -/

theorem fsGet_fsRemove_self (fs : FS) (p : Path) : fsGet (fsRemove fs p) p = none := by
  induction fs with
  | nil => rfl
  | cons e fs ih =>
    by_cases h : e.1 = p
    · simp [fsRemove, fsGet, h, ih]
    · simp [fsRemove, fsGet, h, ih]

theorem fsGet_fsRemove_ne (fs : FS) (p q : Path) (h : q ≠ p) :
    fsGet (fsRemove fs p) q = fsGet fs q := by
  induction fs with
  | nil => rfl
  | cons e fs ih =>
    by_cases he : e.1 = p
    · simp [fsRemove, fsGet, he, Ne.symm h, ih]
    · by_cases hq : e.1 = q
      · simp [fsRemove, fsGet, he, hq, h]
      · simp [fsRemove, fsGet, he, hq, ih]

theorem fsGet_fsSet_self (fs : FS) (p : Path) (c : Content) :
    fsGet (fsSet fs p c) p = some c := by
  simp [fsSet, fsGet]

theorem fsGet_fsSet_ne (fs : FS) (p q : Path) (c : Content) (h : q ≠ p) :
    fsGet (fsSet fs p c) q = fsGet fs q := by
  have hp : p ≠ q := fun hq => h hq.symm
  simp [fsSet, fsGet, hp]
  exact fsGet_fsRemove_ne fs p q h

theorem fsRemove_of_not_mem (fs : FS) (p : Path) (h : fsGet fs p = none) :
    fsRemove fs p = fs := by
  induction fs with
  | nil => rfl
  | cons e fs ih =>
    by_cases he : e.1 = p
    · simp [fsGet, he] at h
    · simp [fsGet, he] at h
      simp [fsRemove, he, ih h]

theorem fsRemove_fsSet_self (fs : FS) (p : Path) (c : Content)
    (h : fsGet fs p = none) : fsRemove (fsSet fs p c) p = fs := by
  have h1 : fsRemove fs p = fs := fsRemove_of_not_mem fs p h
  simp [fsSet, fsRemove]
  rw [h1, h1]

/-! ### Aggregation lemmas -/

theorem foldl_agg_step_eq (rs : List (Option (Nat × Nat))) :
    ∀ t : Nat × Nat, rs.foldl agg_step t =
      (t.1 + ((rs.filterMap id).map Prod.fst).sum,
        t.2 + ((rs.filterMap id).map Prod.snd).sum) := by
  induction rs with
  | nil => intro t; simp
  | cons r rs ih =>
    intro t
    cases r with
    | none => simp [agg_step, ih]
    | some s => simp [agg_step, ih, Nat.add_assoc]

theorem foldl_agg_step_all_none (rs : List (Option (Nat × Nat)))
    (h : ∀ r ∈ rs, r = none) : ∀ t : Nat × Nat, rs.foldl agg_step t = t := by
  induction rs with
  | nil => intro t; rfl
  | cons r rs ih =>
    intro t
    have hr : r = none := h r (List.mem_cons_self r rs)
    have hrs : ∀ r ∈ rs, r = none := fun x hx => h x (List.mem_cons_of_mem r hx)
    simp [hr, agg_step, ih hrs]

theorem aggregate_skip_none (rs1 rs2 : List (Option (Nat × Nat))) :
    aggregate (rs1 ++ none :: rs2) = aggregate (rs1 ++ rs2) := by
  simp [aggregate, List.foldl_append, agg_step]

/-! ### Prefix lemma for the transient-file marker -/

theorem isPrefixOf_append_self (l t : List Char) : l.isPrefixOf (l ++ t) = true := by
  induction l with
  | nil => simp [List.isPrefixOf]
  | cons a l ih => simp [List.isPrefixOf, ih]

/-! ### Unit-loop exhaustion lemma for the size formatter -/

theorem convert_go_exhausted (us : List String) :
    ∀ b : ℚ, (1000 : ℚ) ^ us.length ≤ b → convert_go b us = none := by
  induction us with
  | nil => intro b _; rfl
  | cons u rest ih =>
    intro b hb
    have hpow : (1000 : ℚ) ^ rest.length * 1000 ≤ b := by
      rw [← pow_succ]
      simpa using hb
    have h1 : (1 : ℚ) ≤ 1000 ^ rest.length :=
      one_le_pow₀ (by norm_num : (1 : ℚ) ≤ 1000)
    have hbig : (1000 : ℚ) ≤ b := by nlinarith
    have hnotlt : ¬ b < 1000 := not_lt.mpr hbig
    have hdiv : (1000 : ℚ) ^ rest.length ≤ b / 1000 :=
      (le_div_iff₀ (by norm_num : (0 : ℚ) < 1000)).mpr hpow
    simp [convert_go, hnotlt, ih (b / 1000) hdiv]

/-! ### Claim theorems -/

/-- C8: the human-readable size formatter divides repeatedly by 1000
(decimal), selects the largest unit among bytes/KB/MB/GB/TB with value
below 1000, and renders two decimal places: 950 bytes formats as
"950.00 bytes", 1500 bytes as "1.50 KB", and 2500000 bytes as "2.50 MB". -/
theorem convert_from_bytes_examples :
    convert_from_bytes 950 = some "950.00 bytes" ∧
      convert_from_bytes 1500 = some "1.50 KB" ∧
      convert_from_bytes 2500000 = some "2.50 MB" := by
  refine ⟨?_, ?_, ?_⟩
  · norm_num [convert_from_bytes, sizeUnits, convert_go, format2]
    decide
  · norm_num [convert_from_bytes, sizeUnits, convert_go, format2]
    decide
  · norm_num [convert_from_bytes, sizeUnits, convert_go, format2]
    decide

/-- C10: for byte counts of at least 1000^5, the unit loop of the size
formatter is exhausted and the function returns no string at all. -/
theorem convert_from_bytes_huge_is_none (b : ℚ) (h : (1000 : ℚ) ^ 5 ≤ b) :
    convert_from_bytes b = none :=
  convert_go_exhausted sizeUnits b (by simpa [sizeUnits] using h)

theorem convert_from_bytes_huge_is_none_witness :
    (1000 : ℚ) ^ 5 ≤ 1000 ^ 5 ∧ convert_from_bytes (1000 ^ 5) = none :=
  ⟨le_refl _, convert_from_bytes_huge_is_none (1000 ^ 5) (le_refl _)⟩

/-- C9: running the single-file optimizer on a path that does not end in
the case-sensitive suffix ".pdf" terminates the whole process via
sys.exit with status 1 and the diagnostic "Not a PDF file.", emitting no
size result; the outcome and the untouched filesystem are independent of
the filesystem state and of the compressor behaviour, so the check
happens before any filesystem access or compressor invocation. -/
theorem optimize_file_non_pdf_fatal (fs : FS) (src hex : Path) (p : GSProc)
    (h : endswith src pdfSuffix = false) :
    optimize_file fs src hex p = (JobOutcome.fatalExit 1 "Not a PDF file.", fs) := by
  simp [optimize_file, h]

theorem optimize_file_non_pdf_fatal_witness :
    endswith ['a', '.', 't', 'x', 't'] pdfSuffix = false ∧
      optimize_file [] ['a', '.', 't', 'x', 't'] ['b'] ⟨1, 0, none⟩ =
        (JobOutcome.fatalExit 1 "Not a PDF file.", []) :=
  ⟨by decide,
    optimize_file_non_pdf_fatal [] ['a', '.', 't', 'x', 't'] ['b'] ⟨1, 0, none⟩ (by decide)⟩

/-- C4: the aggregated totals equal the sums of initial and final sizes
over exactly the jobs with a present result (absent results contribute
zero); the 3-PDF scenario 100000→40000, 200000→150000, 50000→50000 (the
third absent, no improvement) yields totals (300000, 190000), whose
ratio 100*(1-190000/300000) renders with two decimals as "36.67". -/
theorem aggregate_totals_and_scenario :
    (∀ results : List (Option (Nat × Nat)),
        aggregate results =
          (((results.filterMap id).map Prod.fst).sum,
            ((results.filterMap id).map Prod.snd).sum)) ∧
      aggregate [some (100000, 40000), some (200000, 150000), none] = (300000, 190000) ∧
      optimize_folder_summary [some (100000, 40000), some (200000, 150000), none] =
        some (100 * (1 - (190000 : ℚ) / 300000)) ∧
      format2 (100 * (1 - (190000 : ℚ) / 300000)) = "36.67" := by
  refine ⟨fun results => by simpa using foldl_agg_step_eq results (0, 0), by decide, ?_, ?_⟩
  · have hagg : aggregate [some (100000, 40000), some (200000, 150000), none] =
        (300000, 190000) := by decide
    rw [optimize_folder_summary, hagg]
    norm_num [compression_ratio]
  · have hr : (100 * (1 - (190000 : ℚ) / 300000)) = 110 / 3 := by norm_num
    have h : round ((110 / 3 : ℚ) * 100) = 3667 := by norm_num [round_eq]
    rw [hr, format2, h]
    decide

/-- C5: a batch in which every job result is absent aggregates to zero
totals, and the summary's compression-ratio computation divides by zero
(the error branch of the division is taken and the computation faults). -/
theorem optimize_folder_summary_all_absent_faults
    (results : List (Option (Nat × Nat))) (h : ∀ r ∈ results, r = none) :
    aggregate results = (0, 0) ∧ optimize_folder_summary results = none := by
  have hagg : aggregate results = (0, 0) := foldl_agg_step_all_none results h (0, 0)
  refine ⟨hagg, ?_⟩
  rw [optimize_folder_summary, hagg]
  rfl

theorem optimize_folder_summary_all_absent_faults_witness :
    (∀ r ∈ ([none, none] : List (Option (Nat × Nat))), r = none) ∧
      aggregate ([none, none] : List (Option (Nat × Nat))) = (0, 0) ∧
      optimize_folder_summary ([none, none] : List (Option (Nat × Nat))) = none :=
  ⟨by decide, optimize_folder_summary_all_absent_faults [none, none] (by decide)⟩

/-- C6: a job whose external process has not exited within the 60-second
timeout is forcibly terminated (the TimeoutExpired branch runs), the call
is treated as a failure, the job returns an absent result, and such an
absent result is skipped by the aggregation, leaving the other jobs'
contributions unchanged. -/
theorem optimize_file_timeout_absent (fs : FS) (src hex : Path) (p : GSProc)
    (srcC : Content) (hpdf : endswith src pdfSuffix = true)
    (hsrc : fsGet fs src = some srcC) (ht : 60 < p.runtime) :
    process_terminated p = true ∧
      (optimize_file fs src hex p).1 = JobOutcome.result none ∧
      ∀ rs1 rs2 : List (Option (Nat × Nat)),
        aggregate (rs1 ++ none :: rs2) = aggregate (rs1 ++ rs2) := by
  have hrc : returncode_after_wait p = none := by
    rw [returncode_after_wait, if_neg (by omega)]
  refine ⟨by simp [process_terminated, ht], ?_, fun rs1 rs2 => aggregate_skip_none rs1 rs2⟩
  cases hw : p.written <;> simp [optimize_file, hpdf, hsrc, hrc, hw]

theorem optimize_file_timeout_absent_witness :
    process_terminated ⟨61, 0, none⟩ = true ∧
      (optimize_file [(['a', '.', 'p', 'd', 'f'], [0, 1, 2])] ['a', '.', 'p', 'd', 'f']
          ['b'] ⟨61, 0, none⟩).1 = JobOutcome.result none ∧
      aggregate ([some (5, 3)] ++ none :: [some (7, 2)]) =
        aggregate ([some (5, 3)] ++ [some (7, 2)]) := by
  have h := optimize_file_timeout_absent [(['a', '.', 'p', 'd', 'f'], [0, 1, 2])]
    ['a', '.', 'p', 'd', 'f'] ['b'] ⟨61, 0, none⟩ [0, 1, 2] (by decide) (by decide) (by decide)
  exact ⟨h.1, h.2.1, h.2.2 [some (5, 3)] [some (7, 2)]⟩

/-- C7: the batch driver's candidate set is exactly the entries ending in
".pdf" (case-sensitive) and not starting with "temp_"; every temporary
name produced by `unique_filename("pdf", "temp_")` starts with "temp_",
so it is excluded and is never selected as a job candidate. -/
theorem folder_candidates_exact_and_exclude_temp :
    (∀ (files : List Path) (name : Path),
        name ∈ folder_candidates files ↔
          name ∈ files ∧ endswith name pdfSuffix = true ∧
            startswith name tempMark = false) ∧
      ∀ hex : Path,
        startswith (unique_filename pdfExt tempMark hex) tempMark = true ∧
          folder_candidates [unique_filename pdfExt tempMark hex] = [] := by
  have hstart : ∀ hex : Path,
      startswith (unique_filename pdfExt tempMark hex) tempMark = true := by
    intro hex
    rw [startswith, unique_filename]
    exact isPrefixOf_append_self tempMark _
  refine ⟨fun files name => ?_, fun hex => ⟨hstart hex, ?_⟩⟩
  · simp only [folder_candidates, List.mem_filter, Bool.and_eq_true, Bool.not_eq_true']
    tauto
  · simp [folder_candidates, List.filter, hstart hex]

/-- C1: when the compressor succeeds and its output is strictly smaller
than the source, the optimizer deletes the original source and then
renames the temp file onto the source path (the resulting filesystem is
literally rename-after-remove), returns the pair
(source size, output size), and afterwards the file at the source path
has the compressed content, whose length is the reported final size. -/
theorem optimize_file_improvement_replaces (fs : FS) (src hex : Path)
    (p : GSProc) (srcC outC : Content)
    (hpdf : endswith src pdfSuffix = true)
    (hsrc : fsGet fs src = some srcC)
    (hout : fsGet fs (output_file_path src hex) = none)
    (hrt : p.runtime ≤ 60) (hec : p.exitCode = 0)
    (hw : p.written = some outC)
    (hlt : outC.length < srcC.length) :
    optimize_file fs src hex p =
      (JobOutcome.result (some (srcC.length, outC.length)),
        fsRename (fsRemove (fsSet fs (output_file_path src hex) outC) src)
          (output_file_path src hex) src) ∧
      fsGet (optimize_file fs src hex p).2 src = some outC ∧
      (fsGet (optimize_file fs src hex p).2 src).map List.length =
        some outC.length := by
  have hne : output_file_path src hex ≠ src := by
    intro he
    rw [he, hsrc] at hout
    cases hout
  have hrc : returncode_after_wait p = some 0 := by
    simp [returncode_after_wait, hrt, hec]
  have heval : optimize_file fs src hex p =
      (JobOutcome.result (some (srcC.length, outC.length)),
        fsRename (fsRemove (fsSet fs (output_file_path src hex) outC) src)
          (output_file_path src hex) src) := by
    simp [optimize_file, hpdf, hsrc, hrc, hw, fsGet_fsSet_self, hlt]
  have hget : fsGet (fsRename (fsRemove (fsSet fs (output_file_path src hex) outC) src)
      (output_file_path src hex) src) src = some outC := by
    have h2 : fsGet (fsRemove (fsSet fs (output_file_path src hex) outC) src)
        (output_file_path src hex) = some outC := by
      rw [fsGet_fsRemove_ne _ _ _ hne, fsGet_fsSet_self]
    simp [fsRename, h2, fsGet_fsSet_self]
  refine ⟨heval, ?_, ?_⟩
  · rw [heval]
    exact hget
  · rw [heval]
    simp [hget]

theorem optimize_file_improvement_replaces_witness :
    optimize_file [(['a', '.', 'p', 'd', 'f'], [0, 1, 2])] ['a', '.', 'p', 'd', 'f']
        ['b'] ⟨1, 0, some [7]⟩ =
      (JobOutcome.result (some (3, 1)),
        fsRename
          (fsRemove
            (fsSet [(['a', '.', 'p', 'd', 'f'], [0, 1, 2])]
              (output_file_path ['a', '.', 'p', 'd', 'f'] ['b']) [7])
            ['a', '.', 'p', 'd', 'f'])
          (output_file_path ['a', '.', 'p', 'd', 'f'] ['b']) ['a', '.', 'p', 'd', 'f']) ∧
      fsGet (optimize_file [(['a', '.', 'p', 'd', 'f'], [0, 1, 2])]
          ['a', '.', 'p', 'd', 'f'] ['b'] ⟨1, 0, some [7]⟩).2
        ['a', '.', 'p', 'd', 'f'] = some [7] ∧
      (fsGet (optimize_file [(['a', '.', 'p', 'd', 'f'], [0, 1, 2])]
          ['a', '.', 'p', 'd', 'f'] ['b'] ⟨1, 0, some [7]⟩).2
        ['a', '.', 'p', 'd', 'f']).map List.length = some 1 :=
  optimize_file_improvement_replaces [(['a', '.', 'p', 'd', 'f'], [0, 1, 2])]
    ['a', '.', 'p', 'd', 'f'] ['b'] ⟨1, 0, some [7]⟩ [0, 1, 2] [7]
    (by decide) (by decide) (by decide) (by decide) rfl rfl (by decide)

/-- C2: when the compressor succeeds but its output is not smaller than
the source (equal size included), the optimizer removes the temp file and
returns an absent result; the filesystem afterwards is exactly the
initial one, so the original file is byte-identical and no temporary
file remains. -/
theorem optimize_file_no_improvement_noop (fs : FS) (src hex : Path)
    (p : GSProc) (srcC outC : Content)
    (hpdf : endswith src pdfSuffix = true)
    (hsrc : fsGet fs src = some srcC)
    (hout : fsGet fs (output_file_path src hex) = none)
    (hrt : p.runtime ≤ 60) (hec : p.exitCode = 0)
    (hw : p.written = some outC)
    (hge : ¬ outC.length < srcC.length) :
    optimize_file fs src hex p = (JobOutcome.result none, fs) ∧
      fsGet (optimize_file fs src hex p).2 src = some srcC ∧
      fsGet (optimize_file fs src hex p).2 (output_file_path src hex) = none := by
  have hrc : returncode_after_wait p = some 0 := by
    simp [returncode_after_wait, hrt, hec]
  have heval : optimize_file fs src hex p = (JobOutcome.result none, fs) := by
    simp [optimize_file, hpdf, hsrc, hrc, hw, fsGet_fsSet_self, hge]
    exact fsRemove_fsSet_self fs _ outC hout
  exact ⟨heval, by rw [heval]; exact hsrc, by rw [heval]; exact hout⟩

theorem optimize_file_no_improvement_noop_witness :
    optimize_file [(['a', '.', 'p', 'd', 'f'], [0, 1, 2])] ['a', '.', 'p', 'd', 'f']
        ['b'] ⟨1, 0, some [4, 5, 6]⟩ =
      (JobOutcome.result none, [(['a', '.', 'p', 'd', 'f'], [0, 1, 2])]) ∧
      fsGet (optimize_file [(['a', '.', 'p', 'd', 'f'], [0, 1, 2])]
          ['a', '.', 'p', 'd', 'f'] ['b'] ⟨1, 0, some [4, 5, 6]⟩).2
        ['a', '.', 'p', 'd', 'f'] = some [0, 1, 2] ∧
      fsGet (optimize_file [(['a', '.', 'p', 'd', 'f'], [0, 1, 2])]
          ['a', '.', 'p', 'd', 'f'] ['b'] ⟨1, 0, some [4, 5, 6]⟩).2
        (output_file_path ['a', '.', 'p', 'd', 'f'] ['b']) = none :=
  optimize_file_no_improvement_noop [(['a', '.', 'p', 'd', 'f'], [0, 1, 2])]
    ['a', '.', 'p', 'd', 'f'] ['b'] ⟨1, 0, some [4, 5, 6]⟩ [0, 1, 2] [4, 5, 6]
    (by decide) (by decide) (by decide) (by decide) rfl rfl (by decide)

/-- C3 (counterexample): a job whose compressor invocation fails after
partially writing the temp file returns an absent result, yet the
temp-prefixed output file is NOT removed: it remains in the filesystem,
contradicting the claim that no transient temp-prefixed file remains. -/
theorem optimize_file_failure_leaves_temp_counterexample :
    (optimize_file [(['a', '.', 'p', 'd', 'f'], [0, 1, 2])] ['a', '.', 'p', 'd', 'f']
        ['b'] ⟨100, 0, some [9]⟩).1 = JobOutcome.result none ∧
      ¬ fsGet (optimize_file [(['a', '.', 'p', 'd', 'f'], [0, 1, 2])]
          ['a', '.', 'p', 'd', 'f'] ['b'] ⟨100, 0, some [9]⟩).2
          (output_file_path ['a', '.', 'p', 'd', 'f'] ['b']) = none ∧
      startswith (output_file_path ['a', '.', 'p', 'd', 'f'] ['b']) tempMark = true := by
  decide

/-- C3 (amended): on a failed compressor invocation (non-zero exit status
or timeout) the optimizer returns an absent result, but it does not
remove a partially written temporary output file: the filesystem keeps
whatever the failed invocation wrote at the temp path. -/
theorem optimize_file_failure_absent_keeps_temp (fs : FS) (src hex : Path)
    (p : GSProc) (srcC : Content)
    (hpdf : endswith src pdfSuffix = true)
    (hsrc : fsGet fs src = some srcC)
    (hfail : returncode_after_wait p ≠ some 0) :
    optimize_file fs src hex p =
      (JobOutcome.result none,
        match p.written with
        | none => fs
        | some c => fsSet fs (output_file_path src hex) c) := by
  have hb : (returncode_after_wait p == some 0) = false := by
    rw [beq_eq_false_iff_ne]
    exact hfail
  cases hw : p.written <;> simp [optimize_file, hpdf, hsrc, hb, hw]

theorem optimize_file_failure_absent_keeps_temp_witness :
    returncode_after_wait ⟨100, 0, some [9]⟩ ≠ some 0 ∧
      optimize_file [(['a', '.', 'p', 'd', 'f'], [0, 1, 2])] ['a', '.', 'p', 'd', 'f']
          ['b'] ⟨100, 0, some [9]⟩ =
        (JobOutcome.result none,
          fsSet [(['a', '.', 'p', 'd', 'f'], [0, 1, 2])]
            (output_file_path ['a', '.', 'p', 'd', 'f'] ['b']) [9]) :=
  ⟨by decide,
    optimize_file_failure_absent_keeps_temp [(['a', '.', 'p', 'd', 'f'], [0, 1, 2])]
      ['a', '.', 'p', 'd', 'f'] ['b'] ⟨100, 0, some [9]⟩ [0, 1, 2]
      (by decide) (by decide) (by decide)⟩

end GsOptimize
